import Mathlib

/-!
Verification of the timer-sequencing engine (`service/history/timerBuilder.go`) and of
the mutable-state store contract exercised by
`common/persistence/cassandraPersistence_test.go` of the Bolinov/cadence repository.

Go `int64` values are modelled as `Int`; every value manipulated by the code below is
in the signed 64-bit range, where `Int`'s bitwise and order structure agrees with Go's.
Go maps are modelled as insertion-ordered association lists (Go's iteration order is
unspecified; this embedding fixes one legal order).
-/

namespace Cadence

/-- Generic association-list read, modelling a Go map read `v, ok := m[k]`. -/
def mapGet {α β : Type} [DecidableEq α] : List (α × β) → α → Option β
  | [], _ => none
  | p :: rest, k => if p.1 = k then some p.2 else mapGet rest k

/-- Generic association-list write, modelling a Go map write `m[k] = v`: replace the
existing entry in place, or append a new one. -/
def mapSet {α β : Type} [DecidableEq α] : List (α × β) → α → β → List (α × β)
  | [], k, v => [(k, v)]
  | p :: rest, k, v => if p.1 = k then (k, v) :: rest else p :: mapSet rest k v

/-! ## Timer constants (timerBuilder.go lines 17-30) -/

/-- math.MaxInt64. -/
def maxInt64 : Int := Int.ofNat (2 ^ 63 - 1)

/-- TimerQueueSeqNumBits = 26: 38 bits of (expiry) timestamp, 26 bits of seqnum. -/
def TimerQueueSeqNumBits : Nat := 26

/-- TimerQueueSeqNumBitmask = (int64(1) << TimerQueueSeqNumBits) - 1. -/
def TimerQueueSeqNumBitmask : Int := Int.ofNat (2 ^ TimerQueueSeqNumBits) - 1

/-- TimerQueueTimeStampBitmask = math.MaxInt64 &^ TimerQueueSeqNumBitmask.
Written in the closed form 2^63 - 2^26 (bits 26..62 set), which the kernel can
evaluate; `timeStampBitmask_def` below proves it equal to the Go and-not expression. -/
def TimerQueueTimeStampBitmask : Int := Int.ofNat (2 ^ 63 - 2 ^ TimerQueueSeqNumBits)

/-- SeqNumMax = math.MaxInt64 & TimerQueueSeqNumBitmask. -/
def SeqNumMax : Int := Int.land maxInt64 TimerQueueSeqNumBitmask

/-- MinTimerKey SequenceID = -1. -/
def MinTimerKey : Int := -1

/-- MaxTimerKey SequenceID = math.MaxInt64. -/
def MaxTimerKey : Int := maxInt64

/-- DefaultScheduleToStartActivityTimeoutInSecs = 10. -/
def DefaultScheduleToStartActivityTimeoutInSecs : Int := 10

/-- DefaultScheduleToCloseActivityTimeoutInSecs = 10. -/
def DefaultScheduleToCloseActivityTimeoutInSecs : Int := 10

/-- DefaultStartToCloseActivityTimeoutInSecs = 10. -/
def DefaultStartToCloseActivityTimeoutInSecs : Int := 10

/-- emptyTimerID = -1. -/
def emptyTimerID : Int := -1

/-- TimerQueueTimeStampBitmask agrees with the Go source expression
`math.MaxInt64 &^ TimerQueueSeqNumBitmask` (and-not of the seqnum mask). -/
theorem timeStampBitmask_def :
    TimerQueueTimeStampBitmask = Int.land maxInt64 (Int.not TimerQueueSeqNumBitmask) := by
  have h1 : Int.not TimerQueueSeqNumBitmask = Int.negSucc (2 ^ 26 - 1) := by decide
  rw [h1]
  show Int.ofNat (2 ^ 63 - 2 ^ 26) = Int.ofNat (Nat.ldiff (2 ^ 63 - 1) (2 ^ 26 - 1))
  congr 1
  apply Nat.eq_of_testBit_eq
  intro i
  rw [Nat.testBit_ldiff, Nat.testBit_two_pow_sub_one, Nat.testBit_two_pow_sub_one]
  have hm : (2 ^ 63 - 2 ^ 26 : Nat) = (2 ^ 37 - 1) <<< 26 := by decide
  rw [hm, Nat.testBit_shiftLeft, Nat.testBit_two_pow_sub_one]
  by_cases h26 : 26 ≤ i
  · by_cases h63 : i < 63
    · have ha : i - 26 < 37 := by omega
      have hb : ¬ i < 26 := by omega
      simp [h26, h63, ha, hb]
    · have ha : ¬ i - 26 < 37 := by omega
      simp [h26, h63, ha]
  · have ha : i < 63 := by omega
    have hb : i < 26 := by omega
    simp [h26, ha, hb]

/-! ## Sequence key codec (timerBuilder.go lines 66-74) -/

/-- ConstructTimerKey forms a unique sequence number given an expiry and sequence
number: `(expiryTime & TimerQueueTimeStampBitmask) | (seqNum & TimerQueueSeqNumBitmask)`. -/
def ConstructTimerKey (expiryTime seqNum : Int) : Int :=
  Int.lor (Int.land expiryTime TimerQueueTimeStampBitmask)
    (Int.land seqNum TimerQueueSeqNumBitmask)

/-- DeconstructTimerKey decomposes a unique sequence number into an expiry and
sequence number: `(key & TimerQueueTimeStampBitmask, key & TimerQueueSeqNumBitmask)`. -/
def DeconstructTimerKey (key : Int) : Int × Int :=
  (Int.land key TimerQueueTimeStampBitmask, Int.land key TimerQueueSeqNumBitmask)

/-! ## Arithmetic characterization of the codec on the signed-64-bit range -/

theorem nat_land_low (n : Nat) : Nat.land n (2 ^ 26 - 1) = n % 2 ^ 26 := by
  apply Nat.eq_of_testBit_eq
  intro i
  rw [show Nat.land n (2 ^ 26 - 1) = n &&& (2 ^ 26 - 1) from rfl]
  rw [Nat.testBit_land, Nat.testBit_two_pow_sub_one, Nat.testBit_mod_two_pow]
  rw [Bool.and_comm]

theorem nat_land_hi (n : Nat) (h : n < 2 ^ 63) :
    Nat.land n (2 ^ 63 - 2 ^ 26) = 2 ^ 26 * (n / 2 ^ 26) := by
  apply Nat.eq_of_testBit_eq
  intro i
  have hmask : (2 ^ 63 - 2 ^ 26 : Nat) = (2 ^ 37 - 1) <<< 26 := by decide
  have hrhs : 2 ^ 26 * (n / 2 ^ 26) = (n >>> 26) <<< 26 := by
    rw [Nat.shiftLeft_eq, Nat.shiftRight_eq_div_pow]
    ring
  rw [show Nat.land n (2 ^ 63 - 2 ^ 26) = n &&& (2 ^ 63 - 2 ^ 26) from rfl, hmask, hrhs]
  rw [Nat.testBit_land, Nat.testBit_shiftLeft, Nat.testBit_shiftLeft, Nat.testBit_shiftRight,
    Nat.testBit_two_pow_sub_one]
  by_cases hi : 26 ≤ i
  · have h26 : 26 + (i - 26) = i := by omega
    rw [h26]
    by_cases hlt : i < 63
    · have ha : i - 26 < 37 := by omega
      simp [hi, ha]
    · have h1 : Nat.testBit n i = false := by
        apply Nat.testBit_lt_two_pow
        calc n < 2 ^ 63 := h
          _ ≤ 2 ^ i := Nat.pow_le_pow_right (by norm_num) (by omega)
      have ha : ¬ i - 26 < 37 := by omega
      simp [h1, ha]
  · simp [hi]

theorem nat_lor_add (q r : Nat) (h : r < 2 ^ 26) :
    Nat.lor (2 ^ 26 * q) r = 2 ^ 26 * q + r := by
  apply Nat.eq_of_testBit_eq
  intro i
  rw [show Nat.lor (2 ^ 26 * q) r = (2 ^ 26 * q) ||| r from rfl]
  rw [Nat.testBit_lor]
  have hq : 2 ^ 26 * q = q <<< 26 := by rw [Nat.shiftLeft_eq]; ring
  by_cases hi : 26 ≤ i
  · have h1 : Nat.testBit r i = false := by
      apply Nat.testBit_lt_two_pow
      calc r < 2 ^ 26 := h
        _ ≤ 2 ^ i := Nat.pow_le_pow_right (by norm_num) hi
    have h2 : Nat.testBit (2 ^ 26 * q + r) i = Nat.testBit q (i - 26) := by
      have hsh : (2 ^ 26 * q + r) >>> 26 = q := by
        rw [Nat.shiftRight_eq_div_pow]
        rw [Nat.mul_add_div (by norm_num)]
        rw [Nat.div_eq_of_lt h]
        omega
      calc Nat.testBit (2 ^ 26 * q + r) i
          = Nat.testBit (2 ^ 26 * q + r) (26 + (i - 26)) := by congr 1; omega
        _ = Nat.testBit ((2 ^ 26 * q + r) >>> 26) (i - 26) := (Nat.testBit_shiftRight _).symm
        _ = Nat.testBit q (i - 26) := by rw [hsh]
    rw [h1, h2, hq, Nat.testBit_shiftLeft]
    simp [hi]
  · have h1 : Nat.testBit (q <<< 26) i = false := by
      rw [Nat.testBit_shiftLeft]
      simp [hi]
    have h2 : Nat.testBit (2 ^ 26 * q + r) i = Nat.testBit r i := by
      have hm : (2 ^ 26 * q + r) % 2 ^ 26 = r := by
        rw [Nat.mul_add_mod]
        exact Nat.mod_eq_of_lt h
      have hmod := Nat.testBit_mod_two_pow (2 ^ 26 * q + r) 26 i
      rw [hm] at hmod
      rw [hmod]
      simp [show i < 26 by omega]
    rw [h2, hq, h1]
    simp

theorem land_seqNumBitmask (x : Int) (hx : 0 ≤ x) :
    Int.land x TimerQueueSeqNumBitmask = x % 67108864 := by
  obtain ⟨n, rfl⟩ : ∃ n : Nat, x = (n : Int) := ⟨x.toNat, (Int.toNat_of_nonneg hx).symm⟩
  have hmask : TimerQueueSeqNumBitmask = ((2 ^ 26 - 1 : Nat) : Int) := by decide
  rw [hmask]
  show ((Nat.land n (2 ^ 26 - 1) : Nat) : Int) = (n : Int) % 67108864
  rw [nat_land_low, Int.ofNat_emod]
  norm_num

theorem land_timeStampBitmask (x : Int) (h0 : 0 ≤ x) (h1 : x < 9223372036854775808) :
    Int.land x TimerQueueTimeStampBitmask = 67108864 * (x / 67108864) := by
  obtain ⟨n, rfl⟩ : ∃ n : Nat, x = (n : Int) := ⟨x.toNat, (Int.toNat_of_nonneg h0).symm⟩
  have hn : n < 2 ^ 63 := by omega
  have hmask : TimerQueueTimeStampBitmask = ((2 ^ 63 - 2 ^ 26 : Nat) : Int) := by decide
  rw [hmask]
  show ((Nat.land n (2 ^ 63 - 2 ^ 26) : Nat) : Int) = 67108864 * ((n : Int) / 67108864)
  rw [nat_land_hi n hn, Nat.cast_mul, Int.ofNat_ediv]
  norm_num

theorem lor_bucket_add (a b : Int) (ha : 0 ≤ a) (hq : a % 67108864 = 0)
    (hb0 : 0 ≤ b) (hb1 : b < 67108864) : Int.lor a b = a + b := by
  obtain ⟨m, rfl⟩ : ∃ m : Nat, a = (m : Int) := ⟨a.toNat, (Int.toNat_of_nonneg ha).symm⟩
  obtain ⟨r, rfl⟩ : ∃ r : Nat, b = (r : Int) := ⟨b.toNat, (Int.toNat_of_nonneg hb0).symm⟩
  have hm : m % 2 ^ 26 = 0 := by omega
  have hr : r < 2 ^ 26 := by omega
  obtain ⟨q, rfl⟩ : ∃ q : Nat, m = 2 ^ 26 * q := ⟨m / 2 ^ 26, by omega⟩
  show ((Nat.lor (2 ^ 26 * q) r : Nat) : Int) = ((2 ^ 26 * q : Nat) : Int) + (r : Int)
  rw [nat_lor_add q r hr]
  push_cast
  ring

/-- On the signed-64-bit range with a non-negative sequence number, the constructed key
is the 2^26-aligned expiry bucket plus the sequence number reduced mod 2^26. -/
theorem constructTimerKey_eq (e s : Int) (he0 : 0 ≤ e) (he1 : e < 9223372036854775808)
    (hs : 0 ≤ s) :
    ConstructTimerKey e s = 67108864 * (e / 67108864) + s % 67108864 := by
  unfold ConstructTimerKey
  rw [land_seqNumBitmask s hs, land_timeStampBitmask e he0 he1]
  apply lor_bucket_add
  · omega
  · omega
  · omega
  · omega

theorem constructTimerKey_nonneg (e s : Int) (he0 : 0 ≤ e)
    (he1 : e < 9223372036854775808) (hs : 0 ≤ s) : 0 ≤ ConstructTimerKey e s := by
  rw [constructTimerKey_eq e s he0 he1 hs]
  omega

theorem constructTimerKey_lt_two63 (e s : Int) (he0 : 0 ≤ e)
    (he1 : e < 9223372036854775808) (hs : 0 ≤ s) :
    ConstructTimerKey e s < 9223372036854775808 := by
  rw [constructTimerKey_eq e s he0 he1 hs]
  omega

theorem deconstructTimerKey_eq (k : Int) (h0 : 0 ≤ k) (h1 : k < 9223372036854775808) :
    DeconstructTimerKey k = (67108864 * (k / 67108864), k % 67108864) := by
  unfold DeconstructTimerKey
  rw [land_seqNumBitmask k h0, land_timeStampBitmask k h0 h1]

/-- Keys from strictly smaller expiry buckets are strictly smaller, whatever the
sequence numbers. -/
theorem constructTimerKey_lt (e1 s1 e2 s2 : Int) (he1 : 0 ≤ e1)
    (he1' : e1 < 9223372036854775808) (hs1 : 0 ≤ s1) (he2 : 0 ≤ e2)
    (he2' : e2 < 9223372036854775808) (hs2 : 0 ≤ s2)
    (hb : e1 / 67108864 < e2 / 67108864) :
    ConstructTimerKey e1 s1 < ConstructTimerKey e2 s2 := by
  rw [constructTimerKey_eq e1 s1 he1 he1' hs1, constructTimerKey_eq e2 s2 he2 he2' hs2]
  omega

/-! ## Claims C2 and C3: the codec's round-trip and ordering laws -/

/-- C2, counterexample: the round-trip law fails for an expiry whose low 26 bits are
not zero. At expiry 1 and sequence number 0 (well inside the 26-bit field bound),
the codec returns (0, 0), not (1, 0): construction masks the low 26 bits of the
expiry away, so they cannot be recovered. -/
theorem c2_roundtrip_counterexample :
    DeconstructTimerKey (ConstructTimerKey 1 0) = (0, 0) ∧
    DeconstructTimerKey (ConstructTimerKey 1 0) ≠ (1, 0) := by
  decide

/-- C2, amended: the round-trip law `DeconstructTimerKey (ConstructTimerKey e s) = (e, s)`
holds exactly when the expiry is non-negative, below 2^63, and aligned to the 26-bit
boundary (its low 26 bits zero), and the sequence number lies within the 26-bit
tie-break field bound. -/
theorem c2_roundtrip_amended (e s : Int) (he0 : 0 ≤ e) (he1 : e < 9223372036854775808)
    (healign : e % 67108864 = 0) (hs0 : 0 ≤ s) (hs1 : s < 67108864) :
    DeconstructTimerKey (ConstructTimerKey e s) = (e, s) := by
  have hkey : ConstructTimerKey e s = e + s := by
    rw [constructTimerKey_eq e s he0 he1 hs0]
    omega
  rw [hkey, deconstructTimerKey_eq (e + s) (by omega) (by omega)]
  have h1 : 67108864 * ((e + s) / 67108864) = e := by omega
  have h2 : (e + s) % 67108864 = s := by omega
  rw [h1, h2]

/-- C2, witness: the amended round-trip law applied at the aligned expiry 2^26 = 67108864
and sequence number 7. -/
theorem c2_roundtrip_amended_witness :
    DeconstructTimerKey (ConstructTimerKey 67108864 7) = (67108864, 7) :=
  c2_roundtrip_amended 67108864 7 (by decide) (by decide) (by decide) (by decide) (by decide)

/-- C3, counterexample: the ordering law fails for expiries in the same 26-bit bucket.
With t1 = 0 < t2 = 1 and tie-breaks s1 = 1, s2 = 0 (both within the field bound),
ConstructTimerKey 0 1 = 1 while ConstructTimerKey 1 0 = 0, so the keys are ordered
against the expiries. -/
theorem c3_ordering_counterexample :
    (0 : Int) < 1 ∧ ConstructTimerKey 0 1 = 1 ∧ ConstructTimerKey 1 0 = 0 ∧
    ¬ ConstructTimerKey 0 1 < ConstructTimerKey 1 0 := by
  decide

/-- C3, amended: for non-negative expiries below 2^63 lying in distinct 26-bit
timestamp buckets (t1 / 2^26 < t2 / 2^26 — in particular any t1 < t2 both aligned to
the 26-bit boundary), and arbitrary tie-break values within the 26-bit field bound,
the scalar keys are ordered as the expiries are. -/
theorem c3_ordering_amended (t1 s1 t2 s2 : Int) (ht1 : 0 ≤ t1)
    (ht1' : t1 < 9223372036854775808) (ht2 : 0 ≤ t2) (ht2' : t2 < 9223372036854775808)
    (hs1 : 0 ≤ s1) (hs1' : s1 < 67108864) (hs2 : 0 ≤ s2) (hs2' : s2 < 67108864)
    (hb : t1 / 67108864 < t2 / 67108864) :
    ConstructTimerKey t1 s1 < ConstructTimerKey t2 s2 :=
  constructTimerKey_lt t1 s1 t2 s2 ht1 ht1' hs1 ht2 ht2' hs2 hb

/-- C3, witness: the amended ordering law applied at bucket-distinct expiries 0 and
67108864 with tie-breaks 67108863 and 0. -/
theorem c3_ordering_amended_witness :
    ConstructTimerKey 0 67108863 < ConstructTimerKey 67108864 0 :=
  c3_ordering_amended 0 67108863 67108864 0 (by decide) (by decide) (by decide)
    (by decide) (by decide) (by decide) (by decide) (by decide) (by decide)

/-! ## Persistence data records used by the timer builder (common/persistence types) -/

/-- persistence.TimerInfo: a pending user timer stored in mutable state. The Go
`ExpiryTime` is a `time.Time`; it is represented here by its `UnixNano` value, which is
how the timer builder consumes it. -/
structure TimerInfo where
  TimerID : String
  ExpiryTime : Int
  StartedID : Int
  TaskID : Int
deriving DecidableEq

/-- persistence.ActivityInfo: a pending activity stored in mutable state. -/
structure ActivityInfo where
  ScheduleID : Int
  StartedID : Int
  ActivityID : String
  ScheduleToStartTimeout : Int
  ScheduleToCloseTimeout : Int
  StartToCloseTimeout : Int
  HeartbeatTimeout : Int
  CancelRequested : Bool
  CancelRequestID : Int
deriving DecidableEq

/-- persistence.UserTimerTask: a persisted user-timer task (TaskID is a compound
sequence key). -/
structure UserTimerTask where
  TaskID : Int
  EventID : Int
deriving DecidableEq

/-- w.TimeoutType thrift enum (generated code). -/
inductive TimeoutType where
  | SCHEDULE_TO_START
  | SCHEDULE_TO_CLOSE
  | START_TO_CLOSE
  | HEARTBEAT
deriving DecidableEq

/-- persistence.ActivityTimeoutTask: a persisted activity-timeout task. -/
structure ActivityTimeoutTask where
  TaskID : Int
  TimeoutType : TimeoutType
  EventID : Int
deriving DecidableEq

/-- Modelled from the spec: the history-package constant `emptyEventID`
(service/history, not under src/), the sentinel event id; its concrete value is
immaterial to every claim below. -/
def emptyEventID : Int := -23

/-- Modelled from the spec: `mutableStateBuilder` (service/history/mutableStateBuilder.go,
not under src/) — the caller-supplied in-memory workflow state snapshot holding the
pending activity map keyed by scheduleID and the pending timer map keyed by timerID
(spec sections 2 and 4.4). Go maps are modelled as insertion-ordered association lists. -/
structure mutableStateBuilder where
  pendingActivityInfoIDs : List (Int × ActivityInfo)
  pendingTimerInfoIDs : List (String × TimerInfo)
deriving DecidableEq

/-- Modelled from the spec: `mutableStateBuilder.isTimerRunning` — whether `timerID`
already has a pending TimerInfo in the snapshot's pending timer map. -/
def isTimerRunning (msBuilder : mutableStateBuilder) (timerID : String) :
    Bool × Option TimerInfo :=
  match mapGet msBuilder.pendingTimerInfoIDs timerID with
  | some ti => (true, some ti)
  | none => (false, none)

/-- Modelled from the spec: `mutableStateBuilder.UpdatePendingTimers` — store a
TimerInfo into the snapshot's pending timer map under its timerID. -/
def UpdatePendingTimers (msBuilder : mutableStateBuilder) (timerID : String)
    (ti : TimerInfo) : mutableStateBuilder :=
  { msBuilder with pendingTimerInfoIDs := mapSet msBuilder.pendingTimerInfoIDs timerID ti }

/-- Modelled from the spec: `mutableStateBuilder.UpdatePendingActivity` — store an
ActivityInfo into the snapshot's pending activity map under its scheduleID. -/
def UpdatePendingActivity (msBuilder : mutableStateBuilder) (scheduleID : Int)
    (ai : ActivityInfo) : mutableStateBuilder :=
  { msBuilder with
    pendingActivityInfoIDs := mapSet msBuilder.pendingActivityInfoIDs scheduleID ai }

/-! ## The timer builder (timerBuilder.go lines 32-127) -/

/-- timerDetails: an in-memory timer candidate. `TimerTask` is a `persistence.Task` in
Go; on the user-timer path modelled here it is always a `*persistence.UserTimerTask`. -/
structure timerDetails where
  SequenceID : Int
  TimerTask : UserTimerTask
  TaskCreated : Bool
deriving DecidableEq

/-- timerBuilder. The two `SequenceNumberGenerator`s are counters: `localSeqNum` is the
`localSeqNumGenerator` (in-process atomic counter, initialized to 1), and `seqNum`
models the shard-scoped generator — Modelled from the spec:
`shardSeqNumGenerator.NextSeq` delegates to `ShardContext.GetTimerSequenceNumber`
(not under src/), a monotonically increasing shard-scoped counter (spec section 4.2). -/
structure timerBuilder where
  timers : List timerDetails
  pendingUserTimers : List (Int × TimerInfo)
  seqNum : Int
  localSeqNum : Int
deriving DecidableEq

/-- localSeqNumGenerator.NextSeq: `atomic.AddInt64(&l.counter, 1)` increments the
counter and returns the new value. -/
def localNextSeq (tb : timerBuilder) : Int × timerBuilder :=
  (tb.localSeqNum + 1, { tb with localSeqNum := tb.localSeqNum + 1 })

/-- shardSeqNumGenerator.NextSeq (modelled as a counter, see `timerBuilder`). -/
def shardNextSeq (tb : timerBuilder) : Int × timerBuilder :=
  (tb.seqNum + 1, { tb with seqNum := tb.seqNum + 1 })

/-- newTimerBuilder: empty timer list and pending map, local counter starting at 1;
the shard generator's current counter value is a parameter. -/
def newTimerBuilder (seqNum : Int) : timerBuilder :=
  { timers := [], pendingUserTimers := [], seqNum := seqNum, localSeqNum := 1 }

/-- insertTimer: `sort.Search` finds the least index `i` with
`timers[i].SequenceID >= td.SequenceID` (equal to `len(timers)` when there is none,
which is what `List.findIdx` returns), the candidate is inserted there, and the call
reports whether `i == 0` — the candidate became the first timer in the list. -/
def insertTimer (ts : List timerDetails) (td : timerDetails) : List timerDetails × Bool :=
  let i := ts.findIdx (fun x => td.SequenceID ≤ x.SequenceID)
  (ts.insertIdx i td, i == 0)

/-- createTimer (timerBuilder.go lines 296-305). -/
def createTimer (tb : timerBuilder) (expires : Int) (task : UserTimerTask)
    (taskCreated : Bool) : timerDetails × Bool × timerBuilder :=
  let p := localNextSeq tb
  let timer : timerDetails :=
    { SequenceID := ConstructTimerKey expires p.1, TimerTask := task, TaskCreated := taskCreated }
  let q := insertTimer p.2.timers timer
  (timer, q.2, { p.2 with timers := q.1 })

/-- loadUserTimer delegates to createTimer. -/
def loadUserTimer (tb : timerBuilder) (expires : Int) (task : UserTimerTask)
    (taskCreated : Bool) : timerDetails × Bool × timerBuilder :=
  createTimer tb expires task taskCreated

/-- The loop body of LoadUserTimers: for each pending TimerInfo `v`, load a timer
candidate carrying a `UserTimerTask{EventID: v.StartedID}` (zero-valued TaskID),
created-flag `v.TaskID != emptyTimerID`, and record `v` under the candidate's
SequenceID in the pendingUserTimers map. -/
def loadUserTimersAux : timerBuilder → List (String × TimerInfo) → timerBuilder
  | tb, [] => tb
  | tb, (_, v) :: rest =>
    let r := loadUserTimer tb v.ExpiryTime { TaskID := 0, EventID := v.StartedID }
      (v.TaskID != emptyTimerID)
    loadUserTimersAux
      { r.2.2 with pendingUserTimers := mapSet r.2.2.pendingUserTimers r.1.SequenceID v }
      rest

/-- LoadUserTimers: reset the timer list and pending map, then load every pending
timer from the mutable state. -/
def LoadUserTimers (tb : timerBuilder) (msBuilder : mutableStateBuilder) : timerBuilder :=
  loadUserTimersAux { tb with timers := [], pendingUserTimers := [] }
    msBuilder.pendingTimerInfoIDs

/-- IsTimerExpired: a timer is expired when the timestamp field of its SequenceID is
less than or equal to the reference time. -/
def IsTimerExpired (td : timerDetails) (referenceTime : Int) : Bool :=
  decide ((DeconstructTimerKey td.SequenceID).1 ≤ referenceTime)

/-- createUserTimerTask: allocate a shard sequence number and build a UserTimerTask
whose TaskID is the compound key of the expiry and that number. -/
def createUserTimerTask (tb : timerBuilder) (expiryTime : Int) (startedEventID : Int) :
    UserTimerTask × timerBuilder :=
  let p := shardNextSeq tb
  ({ TaskID := ConstructTimerKey expiryTime p.1, EventID := startedEventID }, p.2)

/-- Modelled from the spec: `common.AddSecondsToBaseTime` (common package, not under
src/) — absolute expiry = base time + fireTimeout seconds (spec section 4.4);
times are in nanoseconds. -/
def AddSecondsToBaseTime (baseTimeInNanoSec seconds : Int) : Int :=
  baseTimeInNanoSec + seconds * 1000000000

/-- createActivityTimeoutTask; `time.Now()` is threaded in as `now` (UnixNano). -/
def createActivityTimeoutTask (tb : timerBuilder) (now : Int) (fireTimeOut : Int)
    (timeoutType : TimeoutType) (eventID : Int) : ActivityTimeoutTask × timerBuilder :=
  let expiryTime := AddSecondsToBaseTime now fireTimeOut
  let p := shardNextSeq tb
  ({ TaskID := ConstructTimerKey expiryTime p.1, TimeoutType := timeoutType,
     EventID := eventID }, p.2)

/-- createNewTask: deconstruct the candidate's expiry and create a fresh persisted
task with a newly allocated real sequence number. The Go `switch task.GetType()`
has a single reachable arm on this path (`TaskTypeUserTimer`). -/
def createNewTask (tb : timerBuilder) (td : timerDetails) :
    Option UserTimerTask × timerBuilder :=
  let expiry := (DeconstructTimerKey td.SequenceID).1
  let p := createUserTimerTask tb expiry td.TimerTask.EventID
  (some p.1, p.2)

/-- firstTimer: if the list is non-empty and the first timer has no created task,
materialize one; otherwise return nothing. -/
def firstTimer (tb : timerBuilder) : Option UserTimerTask × timerBuilder :=
  match tb.timers with
  | td :: _ => if !td.TaskCreated then createNewTask tb td else (none, tb)
  | [] => (none, tb)

/-- AddActivityTimeoutTask: no task when `fireTimeout <= 0`, otherwise a new
ActivityTimeoutTask. -/
def AddActivityTimeoutTask (tb : timerBuilder) (now : Int) (scheduleID : Int)
    (timeoutType : TimeoutType) (fireTimeout : Int) :
    Option ActivityTimeoutTask × timerBuilder :=
  if fireTimeout ≤ 0 then (none, tb)
  else
    let p := createActivityTimeoutTask tb now fireTimeout timeoutType scheduleID
    (some p.1, p.2)

/-- w.ActivityTaskScheduledEventAttributes: the thrift getters consumed by
AddScheduleToStartActivityTimeout (generated code; getters of the scheduled event's
attributes, modelled as a record of their values). -/
structure ActivityTaskScheduledEventAttributes where
  ActivityId : String
  ScheduleToStartTimeoutSeconds : Int
  ScheduleToCloseTimeoutSeconds : Int
  StartToCloseTimeoutSeconds : Int
  HeartbeatTimeoutSeconds : Int
deriving DecidableEq

/-- AddScheduleToStartActivityTimeout (timerBuilder.go lines 138-169): substitute the
10-second defaults for non-positive configured timeouts, create the
SCHEDULE_TO_START timeout task, and record the new ActivityInfo into the mutable
state. -/
def AddScheduleToStartActivityTimeout (tb : timerBuilder) (now : Int) (scheduleID : Int)
    (scheduleEvent : ActivityTaskScheduledEventAttributes)
    (msBuilder : mutableStateBuilder) :
    Option ActivityTimeoutTask × timerBuilder × mutableStateBuilder :=
  let scheduleToStartTimeout :=
    if scheduleEvent.ScheduleToStartTimeoutSeconds ≤ 0 then
      DefaultScheduleToStartActivityTimeoutInSecs
    else scheduleEvent.ScheduleToStartTimeoutSeconds
  let scheduleToCloseTimeout :=
    if scheduleEvent.ScheduleToCloseTimeoutSeconds ≤ 0 then
      DefaultScheduleToCloseActivityTimeoutInSecs
    else scheduleEvent.ScheduleToCloseTimeoutSeconds
  let startToCloseTimeout :=
    if scheduleEvent.StartToCloseTimeoutSeconds ≤ 0 then
      DefaultStartToCloseActivityTimeoutInSecs
    else scheduleEvent.StartToCloseTimeoutSeconds
  let heartbeatTimeout := scheduleEvent.HeartbeatTimeoutSeconds
  let p := AddActivityTimeoutTask tb now scheduleID TimeoutType.SCHEDULE_TO_START
    scheduleToStartTimeout
  let ms1 := UpdatePendingActivity msBuilder scheduleID
    { ScheduleID := scheduleID, StartedID := emptyEventID,
      ActivityID := scheduleEvent.ActivityId,
      ScheduleToStartTimeout := scheduleToStartTimeout,
      ScheduleToCloseTimeout := scheduleToCloseTimeout,
      StartToCloseTimeout := startToCloseTimeout,
      HeartbeatTimeout := heartbeatTimeout,
      CancelRequested := false, CancelRequestID := emptyEventID }
  (p.1, p.2, ms1)

/-- The success path of AddUserTimer, after its two guards have passed: store the new
TimerInfo with the empty-sentinel TaskID, rebuild the pending-timer index from the
mutable state, and if the first timer needs a persisted task, create it and back-fill
that timer's TaskID in the mutable state. -/
def addUserTimerCommit (tb : timerBuilder) (now : Int) (timerID : String)
    (fireTimeout : Int) (startedID : Int) (msBuilder : mutableStateBuilder) :
    Option UserTimerTask × timerBuilder × mutableStateBuilder :=
  let expiryTime := now + fireTimeout * 1000000000
  let ms1 := UpdatePendingTimers msBuilder timerID
    { TimerID := timerID, ExpiryTime := expiryTime, StartedID := startedID,
      TaskID := emptyTimerID }
  let tb1 := LoadUserTimers tb ms1
  match firstTimer tb1 with
  | (some task, tb2) =>
    match tb2.timers with
    | td0 :: _ =>
      match mapGet tb2.pendingUserTimers td0.SequenceID with
      | some ti =>
        let ti1 := { ti with TaskID := task.TaskID }
        (some task, tb2, UpdatePendingTimers ms1 ti1.TimerID ti1)
      | none => (some task, tb2, ms1)
    | [] => (some task, tb2, ms1)
  | (none, tb2) => (none, tb2, ms1)

/-- AddUserTimer (timerBuilder.go lines 210-242): reject a negative fire timeout and a
timerID that is already pending; otherwise commit. `time.Now()` is threaded in as
`now` (UnixNano); the expiry is `now + fireTimeout seconds`. The two unreachable
arms of `addUserTimerCommit` (a task returned from an empty list, or a first timer
missing from pendingUserTimers, on which Go would nil-dereference) return the state
unchanged. -/
def AddUserTimer (tb : timerBuilder) (now : Int) (timerID : String) (fireTimeout : Int)
    (startedID : Int) (msBuilder : mutableStateBuilder) :
    Except String (Option UserTimerTask × timerBuilder × mutableStateBuilder) :=
  if fireTimeout < 0 then
    Except.error "Invalid user timerout specified"
  else if (isTimerRunning msBuilder timerID).1 then
    Except.error "The timer ID already exist in activity timers list"
  else
    Except.ok (addUserTimerCommit tb now timerID fireTimeout startedID msBuilder)

/-- Whether a call failed. -/
def isError {α : Type} : Except String α → Bool
  | Except.error _ => true
  | Except.ok _ => false

/-! ## Basic map lemmas -/

theorem mapGet_mapSet_self {α β : Type} [DecidableEq α] (m : List (α × β)) (k : α)
    (v : β) : mapGet (mapSet m k v) k = some v := by
  induction m with
  | nil => simp [mapSet, mapGet]
  | cons p rest ih =>
    by_cases h : p.1 = k
    · simp [mapSet, h, mapGet]
    · simp [mapSet, h, mapGet, ih]

theorem mapSet_of_get_none {α β : Type} [DecidableEq α] (m : List (α × β)) (k : α)
    (v : β) (h : mapGet m k = none) : mapSet m k v = m ++ [(k, v)] := by
  induction m with
  | nil => simp [mapSet]
  | cons p rest ih =>
    by_cases hp : p.1 = k
    · simp [mapGet, hp] at h
    · simp only [mapGet, hp, if_false] at h
      simp [mapSet, hp, ih h]

theorem mapGet_append_of_none {α β : Type} [DecidableEq α] (m m' : List (α × β)) (k : α)
    (h : mapGet m k = none) : mapGet (m ++ m') k = mapGet m' k := by
  induction m with
  | nil => simp
  | cons p rest ih =>
    by_cases hp : p.1 = k
    · simp [mapGet, hp] at h
    · simp only [mapGet, hp, if_false] at h
      simpa [mapGet, hp] using ih h

theorem mapGet_singleton_ne {α β : Type} [DecidableEq α] (k k' : α) (v : β)
    (h : k ≠ k') : mapGet [(k, v)] k' = none := by
  simp [mapGet, h]

/-! ## Claim C8: activity timeout suppression -/

/-- C8: AddActivityTimeoutTask returns no task exactly when the supplied fire timeout
is non-positive (no error is signalled), and returns the newly created
ActivityTimeoutTask otherwise. -/
theorem c8_activity_timeout_suppression (tb : timerBuilder) (now scheduleID : Int)
    (timeoutType : TimeoutType) (fireTimeout : Int) :
    ((AddActivityTimeoutTask tb now scheduleID timeoutType fireTimeout).1 = none ↔
      fireTimeout ≤ 0) ∧
    (0 < fireTimeout →
      (AddActivityTimeoutTask tb now scheduleID timeoutType fireTimeout).1 =
        some (createActivityTimeoutTask tb now fireTimeout timeoutType scheduleID).1) := by
  unfold AddActivityTimeoutTask
  by_cases h : fireTimeout ≤ 0 <;> simp [h] <;> omega

/-- C8, witness: at fire timeout 0 the call returns no task, at fire timeout 7 it
returns one. -/
theorem c8_activity_timeout_suppression_witness :
    (AddActivityTimeoutTask (newTimerBuilder 0) 0 2 TimeoutType.HEARTBEAT 0).1 = none ∧
    (AddActivityTimeoutTask (newTimerBuilder 0) 0 2 TimeoutType.HEARTBEAT 7).1 =
      some (createActivityTimeoutTask (newTimerBuilder 0) 0 7 TimeoutType.HEARTBEAT 2).1 :=
  ⟨(c8_activity_timeout_suppression (newTimerBuilder 0) 0 2
      TimeoutType.HEARTBEAT 0).1.mpr (by decide),
   (c8_activity_timeout_suppression (newTimerBuilder 0) 0 2
      TimeoutType.HEARTBEAT 7).2 (by decide)⟩

/-! ## Claim C10: the expiry boundary of IsTimerExpired is inclusive -/

/-- C10: IsTimerExpired holds exactly when the timestamp field extracted from the
candidate's SequenceID is less than or equal to the reference time; in particular a
timer whose extracted expiry equals the reference time is already expired. -/
theorem c10_timer_expired_inclusive (td : timerDetails) (referenceTime : Int) :
    (IsTimerExpired td referenceTime = true ↔
      (DeconstructTimerKey td.SequenceID).1 ≤ referenceTime) ∧
    ((DeconstructTimerKey td.SequenceID).1 = referenceTime →
      IsTimerExpired td referenceTime = true) := by
  constructor
  · simp [IsTimerExpired]
  · intro h
    simp [IsTimerExpired, h]

/-- C10, witness: a timer whose key carries the expiry field 67108864 is expired at
reference time 67108864 exactly (the boundary is inclusive). -/
theorem c10_timer_expired_inclusive_witness :
    IsTimerExpired
      { SequenceID := 67108864, TimerTask := { TaskID := 0, EventID := 0 },
        TaskCreated := false } 67108864 = true :=
  (c10_timer_expired_inclusive
    { SequenceID := 67108864, TimerTask := { TaskID := 0, EventID := 0 },
      TaskCreated := false } 67108864).2 (by decide)

/-! ## Claim C6: the AddUserTimer error contract -/

/-- C6: AddUserTimer fails exactly when the fire timeout is negative or the timerID
already has a pending TimerInfo in the mutable state; on failure nothing is stored
(the error carries no state), so the duplicate check precedes any store. -/
theorem c6_addUserTimer_error_contract (tb : timerBuilder) (now : Int) (timerID : String)
    (fireTimeout startedID : Int) (msBuilder : mutableStateBuilder) :
    isError (AddUserTimer tb now timerID fireTimeout startedID msBuilder) = true ↔
      (fireTimeout < 0 ∨ mapGet msBuilder.pendingTimerInfoIDs timerID ≠ none) := by
  unfold AddUserTimer isTimerRunning
  by_cases h1 : fireTimeout < 0
  · simp [h1, isError]
  · rcases h2 : mapGet msBuilder.pendingTimerInfoIDs timerID with _ | ti
    · simp [h1, h2, isError]
    · simp [h1, h2, isError]

/-! ## Claim C7: schedule-to-start default substitution -/

/-- C7: AddScheduleToStartActivityTimeout records a new ActivityInfo in the mutable
state in which every non-positive configured timeout among schedule-to-start,
schedule-to-close and start-to-close is replaced by the 10-second default, the
heartbeat timeout is passed through unchanged, and a new ActivityTimeoutTask is
returned. -/
theorem c7_schedule_to_start_defaults (tb : timerBuilder) (now scheduleID : Int)
    (scheduleEvent : ActivityTaskScheduledEventAttributes)
    (msBuilder : mutableStateBuilder) :
    (AddScheduleToStartActivityTimeout tb now scheduleID scheduleEvent msBuilder).1.isSome
      = true ∧
    mapGet (AddScheduleToStartActivityTimeout tb now scheduleID scheduleEvent
        msBuilder).2.2.pendingActivityInfoIDs scheduleID =
      some { ScheduleID := scheduleID, StartedID := emptyEventID,
             ActivityID := scheduleEvent.ActivityId,
             ScheduleToStartTimeout :=
               if scheduleEvent.ScheduleToStartTimeoutSeconds ≤ 0 then 10
               else scheduleEvent.ScheduleToStartTimeoutSeconds,
             ScheduleToCloseTimeout :=
               if scheduleEvent.ScheduleToCloseTimeoutSeconds ≤ 0 then 10
               else scheduleEvent.ScheduleToCloseTimeoutSeconds,
             StartToCloseTimeout :=
               if scheduleEvent.StartToCloseTimeoutSeconds ≤ 0 then 10
               else scheduleEvent.StartToCloseTimeoutSeconds,
             HeartbeatTimeout := scheduleEvent.HeartbeatTimeoutSeconds,
             CancelRequested := false, CancelRequestID := emptyEventID } := by
  constructor
  · unfold AddScheduleToStartActivityTimeout AddActivityTimeoutTask
    by_cases h : scheduleEvent.ScheduleToStartTimeoutSeconds ≤ 0
    · simp [h, DefaultScheduleToStartActivityTimeoutInSecs]
    · simp only [h, if_false]
      simp [show ¬ scheduleEvent.ScheduleToStartTimeoutSeconds ≤ 0 from h]
  · unfold AddScheduleToStartActivityTimeout UpdatePendingActivity
    simp only []
    rw [mapGet_mapSet_self]
    simp [DefaultScheduleToStartActivityTimeoutInSecs,
      DefaultScheduleToCloseActivityTimeoutInSecs, DefaultStartToCloseActivityTimeoutInSecs]

/-! ## Claim C1: sequences of AddUserTimer calls -/

/-- One AddUserTimer call's inputs: the wall-clock `now` at the call, the timerID, the
fire timeout in seconds, and the started event id. -/
structure AddCall where
  now : Int
  timerID : String
  fireTimeout : Int
  startedID : Int
deriving DecidableEq

/-- The absolute expiry an AddUserTimer call computes. -/
def callExpiry (c : AddCall) : Int := c.now + c.fireTimeout * 1000000000

/-- Run a sequence of AddUserTimer calls against one builder and one mutable-state
snapshot, failing the whole run if any call errors. -/
def runAdds : timerBuilder → mutableStateBuilder → List AddCall →
    Option (timerBuilder × mutableStateBuilder)
  | tb, ms, [] => some (tb, ms)
  | tb, ms, c :: cs =>
    match AddUserTimer tb c.now c.timerID c.fireTimeout c.startedID ms with
    | Except.error _ => none
    | Except.ok r => runAdds r.2.1 r.2.2 cs

/-- How many pending TimerInfos of a snapshot have a created persisted task (TaskID
different from the empty sentinel). -/
def taskedCount (msBuilder : mutableStateBuilder) : Nat :=
  (msBuilder.pendingTimerInfoIDs.filter (fun p => p.2.TaskID != emptyTimerID)).length

/-- C1, counterexample: two successful AddUserTimer calls with distinct timerIDs and
distinct expiries (100s, then 10s, both at time 0), added in decreasing expiry order.
After the sequence, TWO pending TimerInfos hold a created task id — AddUserTimer
never clears the TaskID of a previously materialized timer when a new earlier timer
arrives — refuting "exactly one pending TimerInfo has a persisted timer task". -/
theorem c1_earliest_only_counterexample :
    (runAdds (newTimerBuilder 0)
        { pendingActivityInfoIDs := [], pendingTimerInfoIDs := [] }
        [{ now := 0, timerID := "t1", fireTimeout := 100, startedID := 5 },
         { now := 0, timerID := "t2", fireTimeout := 10, startedID := 6 }]).map
      (fun r => taskedCount r.2) = some 2 := by
  decide

/-! ## Machinery for the amended claim C1 -/

/-- The 2^26-aligned timestamp bucket of an expiry: the value the timestamp field of a
constructed key retains. -/
def expiryBucket (e : Int) : Int := 67108864 * (e / 67108864)

theorem constructTimerKey_lt_of_bucket_lt (e1 s1 e2 s2 : Int) (he1 : 0 ≤ e1)
    (he1' : e1 < 9223372036854775808) (hs1 : 0 ≤ s1) (he2 : 0 ≤ e2)
    (he2' : e2 < 9223372036854775808) (hs2 : 0 ≤ s2)
    (hb : expiryBucket e1 < expiryBucket e2) :
    ConstructTimerKey e1 s1 < ConstructTimerKey e2 s2 := by
  rw [constructTimerKey_eq e1 s1 he1 he1' hs1, constructTimerKey_eq e2 s2 he2 he2' hs2]
  unfold expiryBucket at hb
  omega

theorem lt_of_expiryBucket_lt (e1 e2 : Int) (hb : expiryBucket e1 < expiryBucket e2) :
    e1 < e2 := by
  unfold expiryBucket at hb
  omega

theorem findIdx_eq_length_of_false {α : Type} (p : α → Bool) (l : List α)
    (h : ∀ x ∈ l, p x = false) : l.findIdx p = l.length := by
  induction l with
  | nil => simp
  | cons x xs ih =>
    rw [List.findIdx_cons]
    have hx : p x = false := h x (by simp)
    rw [hx]
    simp only [cond_false, List.length_cons]
    rw [ih (fun y hy => h y (by simp [hy]))]

/-- Inserting a candidate strictly greater than every element appends it at the end
and reports first-position exactly when the list was empty. -/
theorem insertTimer_append (ts : List timerDetails) (td : timerDetails)
    (h : ∀ x ∈ ts, x.SequenceID < td.SequenceID) :
    insertTimer ts td = (ts ++ [td], ts.length == 0) := by
  unfold insertTimer
  have hidx : ts.findIdx (fun x => td.SequenceID ≤ x.SequenceID) = ts.length := by
    apply findIdx_eq_length_of_false
    intro x hx
    have := h x hx
    simp only [decide_eq_false_iff_not]
    omega
  rw [hidx]
  show (List.insertIdx ts.length td ts, ts.length == 0) = (ts ++ [td], ts.length == 0)
  rw [List.insertIdx_length_self]

/-- The new TimerInfo an AddUserTimer call stores before any task is materialized. -/
def newTimerInfo (c : AddCall) : TimerInfo :=
  { TimerID := c.timerID, ExpiryTime := callExpiry c, StartedID := c.startedID,
    TaskID := emptyTimerID }

/-- Rebuilding the index from entries whose expiry buckets strictly ascend (and exceed
everything already present) appends candidates in entry order; each candidate's
created-flag mirrors whether its TimerInfo already holds a task id. -/
theorem loadUserTimersAux_asc (entries : List (String × TimerInfo)) :
    ∀ tb : timerBuilder,
    (∀ p ∈ entries, 0 ≤ p.2.ExpiryTime ∧ p.2.ExpiryTime < 9223372036854775808) →
    entries.Pairwise
      (fun a b => expiryBucket a.2.ExpiryTime < expiryBucket b.2.ExpiryTime) →
    0 ≤ tb.localSeqNum →
    (∀ td ∈ tb.timers, ∀ p ∈ entries, ∀ s : Int, 0 ≤ s →
      td.SequenceID < ConstructTimerKey p.2.ExpiryTime s) →
    ∃ tds, (loadUserTimersAux tb entries).timers = tb.timers ++ tds ∧
      List.Forall₂ (fun (td : timerDetails) (p : String × TimerInfo) =>
        td.TaskCreated = (p.2.TaskID != emptyTimerID)) tds entries ∧
      0 ≤ (loadUserTimersAux tb entries).localSeqNum ∧
      (loadUserTimersAux tb entries).seqNum = tb.seqNum := by
  induction entries with
  | nil =>
    intro tb _ _ hloc _
    exact ⟨[], by simp [loadUserTimersAux], List.Forall₂.nil, by simpa [loadUserTimersAux],
      rfl⟩
  | cons p rest ih =>
    obtain ⟨id, v⟩ := p
    intro tb hrange hsorted hloc hprev
    have hvrange : 0 ≤ v.ExpiryTime ∧ v.ExpiryTime < 9223372036854775808 :=
      hrange (id, v) (by simp)
    have hins : insertTimer tb.timers
        { SequenceID := ConstructTimerKey v.ExpiryTime (tb.localSeqNum + 1),
          TimerTask := { TaskID := 0, EventID := v.StartedID },
          TaskCreated := (v.TaskID != emptyTimerID) } =
        (tb.timers ++
          [{ SequenceID := ConstructTimerKey v.ExpiryTime (tb.localSeqNum + 1),
             TimerTask := { TaskID := 0, EventID := v.StartedID },
             TaskCreated := (v.TaskID != emptyTimerID) }], tb.timers.length == 0) := by
      apply insertTimer_append
      intro x hx
      exact hprev x hx (id, v) (by simp) (tb.localSeqNum + 1) (by omega)
    have hstep : loadUserTimersAux tb ((id, v) :: rest) = loadUserTimersAux
        { timers := tb.timers ++
            [{ SequenceID := ConstructTimerKey v.ExpiryTime (tb.localSeqNum + 1),
               TimerTask := { TaskID := 0, EventID := v.StartedID },
               TaskCreated := (v.TaskID != emptyTimerID) }],
          pendingUserTimers := mapSet tb.pendingUserTimers
            (ConstructTimerKey v.ExpiryTime (tb.localSeqNum + 1)) v,
          seqNum := tb.seqNum, localSeqNum := tb.localSeqNum + 1 } rest := by
      simp only [loadUserTimersAux, loadUserTimer, createTimer, localNextSeq, hins]
    rw [hstep]
    obtain ⟨tds, h1, h2, h3, h4⟩ := ih
      { timers := tb.timers ++
          [{ SequenceID := ConstructTimerKey v.ExpiryTime (tb.localSeqNum + 1),
             TimerTask := { TaskID := 0, EventID := v.StartedID },
             TaskCreated := (v.TaskID != emptyTimerID) }],
        pendingUserTimers := mapSet tb.pendingUserTimers
          (ConstructTimerKey v.ExpiryTime (tb.localSeqNum + 1)) v,
        seqNum := tb.seqNum, localSeqNum := tb.localSeqNum + 1 }
      (fun q hq => hrange q (by simp [hq]))
      ((List.pairwise_cons.mp hsorted).2)
      (by simp; omega)
      (by
        intro td htd q hq s hs
        simp only [List.mem_append, List.mem_singleton] at htd
        rcases htd with htd | htd
        · exact hprev td htd q (by simp [hq]) s hs
        · subst htd
          have hqrange := hrange q (by simp [hq])
          have hb := (List.pairwise_cons.mp hsorted).1 q hq
          exact constructTimerKey_lt_of_bucket_lt v.ExpiryTime (tb.localSeqNum + 1)
            q.2.ExpiryTime s hvrange.1 hvrange.2 (by omega) hqrange.1 hqrange.2 hs hb)
    refine ⟨{ SequenceID := ConstructTimerKey v.ExpiryTime (tb.localSeqNum + 1),
              TimerTask := { TaskID := 0, EventID := v.StartedID },
              TaskCreated := (v.TaskID != emptyTimerID) } :: tds, ?_, ?_, h3, h4⟩
    · rw [h1]
      simp
    · exact List.Forall₂.cons rfl h2

/-- The invariant maintained along an ascending-bucket sequence of successful
AddUserTimer calls on a freshly started builder: the first stored TimerInfo (and only
it) holds a created task id, expiries are in range, buckets strictly ascend in map
order, and the builder's counters are non-negative. -/
def C1Inv (tb : timerBuilder) (ms : mutableStateBuilder) : Prop :=
  0 ≤ tb.localSeqNum ∧ 0 ≤ tb.seqNum ∧
  (∀ p ∈ ms.pendingTimerInfoIDs,
    0 ≤ p.2.ExpiryTime ∧ p.2.ExpiryTime < 9223372036854775808) ∧
  ms.pendingTimerInfoIDs.Pairwise
    (fun a b => expiryBucket a.2.ExpiryTime < expiryBucket b.2.ExpiryTime) ∧
  (∃ e0 rest, ms.pendingTimerInfoIDs = e0 :: rest ∧ e0.2.TaskID ≠ emptyTimerID ∧
    ∀ p ∈ rest, p.2.TaskID = emptyTimerID)

theorem firstTimer_of_head_created (tb : timerBuilder) (td : timerDetails)
    (rest : List timerDetails) (h : tb.timers = td :: rest)
    (hc : td.TaskCreated = true) : firstTimer tb = (none, tb) := by
  unfold firstTimer
  rw [h]
  simp [hc]

theorem addUserTimerCommit_none (tb : timerBuilder) (now : Int) (timerID : String)
    (fireTimeout startedID : Int) (ms : mutableStateBuilder)
    (h : firstTimer (LoadUserTimers tb (UpdatePendingTimers ms timerID
        { TimerID := timerID, ExpiryTime := now + fireTimeout * 1000000000,
          StartedID := startedID, TaskID := emptyTimerID })) =
      (none, LoadUserTimers tb (UpdatePendingTimers ms timerID
        { TimerID := timerID, ExpiryTime := now + fireTimeout * 1000000000,
          StartedID := startedID, TaskID := emptyTimerID }))) :
    addUserTimerCommit tb now timerID fireTimeout startedID ms =
      (none,
        LoadUserTimers tb (UpdatePendingTimers ms timerID
          { TimerID := timerID, ExpiryTime := now + fireTimeout * 1000000000,
            StartedID := startedID, TaskID := emptyTimerID }),
        UpdatePendingTimers ms timerID
          { TimerID := timerID, ExpiryTime := now + fireTimeout * 1000000000,
            StartedID := startedID, TaskID := emptyTimerID }) := by
  simp only [addUserTimerCommit]
  rw [h]

/-- A successful AddUserTimer call whose expiry bucket strictly exceeds every pending
bucket returns no task and merely appends the new (taskless) TimerInfo. -/
theorem addUserTimer_step (tb : timerBuilder) (ms : mutableStateBuilder) (c : AddCall)
    (hInv : C1Inv tb ms)
    (hfresh : mapGet ms.pendingTimerInfoIDs c.timerID = none)
    (hnow : 0 ≤ c.now) (hft : 0 ≤ c.fireTimeout)
    (hexp : callExpiry c < 9223372036854775808)
    (hgt : ∀ p ∈ ms.pendingTimerInfoIDs,
      expiryBucket p.2.ExpiryTime < expiryBucket (callExpiry c)) :
    ∃ tb2, AddUserTimer tb c.now c.timerID c.fireTimeout c.startedID ms =
      Except.ok (none, tb2,
        { ms with pendingTimerInfoIDs :=
            ms.pendingTimerInfoIDs ++ [(c.timerID, newTimerInfo c)] }) ∧
      C1Inv tb2 { ms with pendingTimerInfoIDs :=
            ms.pendingTimerInfoIDs ++ [(c.timerID, newTimerInfo c)] } := by
  obtain ⟨hloc, hshard, hrange, hsorted, e0, rest, hpend, hne0, hrest⟩ := hInv
  have hexp0 : 0 ≤ callExpiry c := by unfold callExpiry; positivity
  have hupd : UpdatePendingTimers ms c.timerID
      { TimerID := c.timerID, ExpiryTime := c.now + c.fireTimeout * 1000000000,
        StartedID := c.startedID, TaskID := emptyTimerID } =
      { ms with pendingTimerInfoIDs :=
          ms.pendingTimerInfoIDs ++ [(c.timerID, newTimerInfo c)] } := by
    unfold UpdatePendingTimers
    rw [mapSet_of_get_none _ _ _ hfresh]
    rfl
  -- the rebuilt index
  have hrange' : ∀ p ∈ ms.pendingTimerInfoIDs ++ [(c.timerID, newTimerInfo c)],
      0 ≤ p.2.ExpiryTime ∧ p.2.ExpiryTime < 9223372036854775808 := by
    intro p hp
    rcases List.mem_append.mp hp with hp | hp
    · exact hrange p hp
    · simp only [List.mem_singleton] at hp
      subst hp
      exact ⟨hexp0, hexp⟩
  have hsorted' : (ms.pendingTimerInfoIDs ++ [(c.timerID, newTimerInfo c)]).Pairwise
      (fun a b => expiryBucket a.2.ExpiryTime < expiryBucket b.2.ExpiryTime) := by
    rw [List.pairwise_append]
    refine ⟨hsorted, by simp, ?_⟩
    intro a ha b hb
    simp only [List.mem_singleton] at hb
    subst hb
    exact hgt a ha
  obtain ⟨tds, htds, hF, hloc2, hseq2⟩ :=
    loadUserTimersAux_asc (ms.pendingTimerInfoIDs ++ [(c.timerID, newTimerInfo c)])
      { tb with timers := [], pendingUserTimers := [] }
      hrange' hsorted' (by simpa) (by simp)
  have hload : LoadUserTimers tb { ms with pendingTimerInfoIDs :=
      ms.pendingTimerInfoIDs ++ [(c.timerID, newTimerInfo c)] } =
      loadUserTimersAux { tb with timers := [], pendingUserTimers := [] }
        (ms.pendingTimerInfoIDs ++ [(c.timerID, newTimerInfo c)]) := rfl
  -- the head of the rebuilt index corresponds to e0, whose task is already created
  rw [hpend] at hF htds
  rw [show (e0 :: rest) ++ [(c.timerID, newTimerInfo c)] =
    e0 :: (rest ++ [(c.timerID, newTimerInfo c)]) from by simp] at hF htds
  rcases hF with _ | ⟨hrel, hF'⟩
  rename_i td0 tds0
  have hcreated : td0.TaskCreated = true := by
    rw [hrel]
    exact bne_iff_ne.mpr hne0
  have hfirstN : firstTimer (LoadUserTimers tb { ms with pendingTimerInfoIDs :=
      ms.pendingTimerInfoIDs ++ [(c.timerID, newTimerInfo c)] }) =
      (none, LoadUserTimers tb { ms with pendingTimerInfoIDs :=
        ms.pendingTimerInfoIDs ++ [(c.timerID, newTimerInfo c)] }) := by
    apply firstTimer_of_head_created _ td0 tds0 _ hcreated
    rw [hload, hpend]
    rw [show (e0 :: rest) ++ [(c.timerID, newTimerInfo c)] =
      e0 :: (rest ++ [(c.timerID, newTimerInfo c)]) from by simp]
    simpa using htds
  rw [← hupd] at hfirstN
  have hcommit := addUserTimerCommit_none tb c.now c.timerID c.fireTimeout c.startedID
    ms hfirstN
  refine ⟨LoadUserTimers tb { ms with pendingTimerInfoIDs :=
      ms.pendingTimerInfoIDs ++ [(c.timerID, newTimerInfo c)] }, ?_, ?_⟩
  · unfold AddUserTimer
    rw [if_neg (by omega)]
    rw [if_neg (by unfold isTimerRunning; rw [hfresh]; simp)]
    rw [hcommit, hupd]
  · refine ⟨?_, ?_, hrange', hsorted', e0, rest ++ [(c.timerID, newTimerInfo c)],
      by rw [hpend]; simp, hne0, ?_⟩
    · rw [hload]
      exact hloc2
    · rw [hload, hseq2]
      simpa using hshard
    · intro p hp
      rcases List.mem_append.mp hp with hp | hp
      · exact hrest p hp
      · simp only [List.mem_singleton] at hp
        subst hp
        rfl

theorem loadUserTimers_singleton (tb : timerBuilder) (ms : mutableStateBuilder)
    (id : String) (ti : TimerInfo) (hms : ms.pendingTimerInfoIDs = [(id, ti)])
    (hempty : ti.TaskID = emptyTimerID) :
    LoadUserTimers tb ms =
      { timers := [{ SequenceID := ConstructTimerKey ti.ExpiryTime (tb.localSeqNum + 1),
                     TimerTask := { TaskID := 0, EventID := ti.StartedID },
                     TaskCreated := false }],
        pendingUserTimers := [(ConstructTimerKey ti.ExpiryTime (tb.localSeqNum + 1), ti)],
        seqNum := tb.seqNum, localSeqNum := tb.localSeqNum + 1 } := by
  unfold LoadUserTimers
  rw [hms]
  simp only [loadUserTimersAux, loadUserTimer, createTimer, localNextSeq, insertTimer,
    List.findIdx_nil, List.insertIdx_zero, mapSet, hempty, bne_self_eq_false]

theorem firstTimer_singleton_uncreated (tb : timerBuilder) (td : timerDetails)
    (rest : List timerDetails) (hts : tb.timers = td :: rest)
    (hc : td.TaskCreated = false) :
    firstTimer tb =
      (some { TaskID := ConstructTimerKey ((DeconstructTimerKey td.SequenceID).1)
                (tb.seqNum + 1),
              EventID := td.TimerTask.EventID },
       { tb with seqNum := tb.seqNum + 1 }) := by
  unfold firstTimer
  rw [hts]
  simp [hc, hts, createNewTask, createUserTimerTask, shardNextSeq]

theorem addUserTimerCommit_some (tb : timerBuilder) (now : Int) (timerID : String)
    (fireTimeout startedID : Int) (ms : mutableStateBuilder) (task : UserTimerTask)
    (tb2 : timerBuilder) (td0 : timerDetails) (rest0 : List timerDetails)
    (ti : TimerInfo)
    (hfirst : firstTimer (LoadUserTimers tb (UpdatePendingTimers ms timerID
        { TimerID := timerID, ExpiryTime := now + fireTimeout * 1000000000,
          StartedID := startedID, TaskID := emptyTimerID })) = (some task, tb2))
    (htimers : tb2.timers = td0 :: rest0)
    (hget : mapGet tb2.pendingUserTimers td0.SequenceID = some ti) :
    addUserTimerCommit tb now timerID fireTimeout startedID ms =
      (some task, tb2,
        UpdatePendingTimers (UpdatePendingTimers ms timerID
          { TimerID := timerID, ExpiryTime := now + fireTimeout * 1000000000,
            StartedID := startedID, TaskID := emptyTimerID })
          ti.TimerID { ti with TaskID := task.TaskID }) := by
  simp only [addUserTimerCommit]
  rw [hfirst]
  simp only [htimers, hget]

/-- The TaskID of the task that the first AddUserTimer call on an empty snapshot
materializes (proof scaffolding). -/
def firstTaskID (tb : timerBuilder) (c : AddCall) : Int :=
  ConstructTimerKey
    ((DeconstructTimerKey (ConstructTimerKey (callExpiry c) (tb.localSeqNum + 1))).1)
    (tb.seqNum + 1)

/-- The single timer candidate loaded from a one-entry snapshot (proof scaffolding). -/
def firstTd (tb : timerBuilder) (c : AddCall) : timerDetails :=
  { SequenceID := ConstructTimerKey (callExpiry c) (tb.localSeqNum + 1),
    TimerTask := { TaskID := 0, EventID := c.startedID }, TaskCreated := false }

/-- The builder state after loading a one-entry snapshot (proof scaffolding). -/
def loadedSingleton (tb : timerBuilder) (c : AddCall) : timerBuilder :=
  { timers := [firstTd tb c],
    pendingUserTimers :=
      [(ConstructTimerKey (callExpiry c) (tb.localSeqNum + 1), newTimerInfo c)],
    seqNum := tb.seqNum, localSeqNum := tb.localSeqNum + 1 }

/-- The first successful AddUserTimer call on an empty snapshot stores the new
TimerInfo and immediately materializes a task for it, back-filling a TaskID that is
not the empty sentinel. -/
theorem addUserTimer_first (tb : timerBuilder) (c : AddCall) (ms : mutableStateBuilder)
    (hms : ms.pendingTimerInfoIDs = [])
    (hloc : 0 ≤ tb.localSeqNum) (hshard : 0 ≤ tb.seqNum)
    (hnow : 0 ≤ c.now) (hft : 0 ≤ c.fireTimeout)
    (hexp : callExpiry c < 9223372036854775808) :
    ∃ o tb2 t, AddUserTimer tb c.now c.timerID c.fireTimeout c.startedID ms =
      Except.ok (o, tb2, { ms with pendingTimerInfoIDs := [(c.timerID,
        { TimerID := c.timerID, ExpiryTime := callExpiry c, StartedID := c.startedID,
          TaskID := t })] }) ∧
      t ≠ emptyTimerID ∧ 0 ≤ tb2.localSeqNum ∧ 0 ≤ tb2.seqNum := by
  have hexp0 : 0 ≤ callExpiry c := by unfold callExpiry; positivity
  have ht0 : 0 ≤ firstTaskID tb c := by
    have hkey0 : 0 ≤ ConstructTimerKey (callExpiry c) (tb.localSeqNum + 1) :=
      constructTimerKey_nonneg _ _ hexp0 hexp (by omega)
    have hkeyB : ConstructTimerKey (callExpiry c) (tb.localSeqNum + 1)
        < 9223372036854775808 :=
      constructTimerKey_lt_two63 _ _ hexp0 hexp (by omega)
    have hdec := deconstructTimerKey_eq _ hkey0 hkeyB
    have h1 : (DeconstructTimerKey (ConstructTimerKey (callExpiry c)
        (tb.localSeqNum + 1))).1 =
        67108864 * (ConstructTimerKey (callExpiry c) (tb.localSeqNum + 1) / 67108864) := by
      rw [hdec]
    unfold firstTaskID
    apply constructTimerKey_nonneg
    · rw [h1]; omega
    · rw [h1]; omega
    · omega
  have hupd : UpdatePendingTimers ms c.timerID
      { TimerID := c.timerID, ExpiryTime := c.now + c.fireTimeout * 1000000000,
        StartedID := c.startedID, TaskID := emptyTimerID } =
      { ms with pendingTimerInfoIDs := [(c.timerID, newTimerInfo c)] } := by
    unfold UpdatePendingTimers
    rw [hms]
    rfl
  have hload : LoadUserTimers tb
      { ms with pendingTimerInfoIDs := [(c.timerID, newTimerInfo c)] } =
      loadedSingleton tb c := by
    rw [loadUserTimers_singleton tb _ c.timerID (newTimerInfo c) rfl rfl]
    rfl
  have hfirst0 : firstTimer (loadedSingleton tb c) =
      (some { TaskID := firstTaskID tb c, EventID := c.startedID },
        { loadedSingleton tb c with seqNum := tb.seqNum + 1 }) :=
    firstTimer_singleton_uncreated (loadedSingleton tb c) (firstTd tb c) [] rfl rfl
  have hfirst : firstTimer (LoadUserTimers tb (UpdatePendingTimers ms c.timerID
      { TimerID := c.timerID, ExpiryTime := c.now + c.fireTimeout * 1000000000,
        StartedID := c.startedID, TaskID := emptyTimerID })) =
      (some { TaskID := firstTaskID tb c, EventID := c.startedID },
        { loadedSingleton tb c with seqNum := tb.seqNum + 1 }) := by
    rw [hupd, hload, hfirst0]
  have hget : mapGet (loadedSingleton tb c).pendingUserTimers
      (firstTd tb c).SequenceID = some (newTimerInfo c) := by
    simp [loadedSingleton, mapGet, firstTd]
  have hcommit := addUserTimerCommit_some tb c.now c.timerID c.fireTimeout c.startedID
    ms { TaskID := firstTaskID tb c, EventID := c.startedID }
    { loadedSingleton tb c with seqNum := tb.seqNum + 1 }
    (firstTd tb c) [] (newTimerInfo c) hfirst rfl hget
  refine ⟨some { TaskID := firstTaskID tb c, EventID := c.startedID },
    { loadedSingleton tb c with seqNum := tb.seqNum + 1 }, firstTaskID tb c,
    ?_, ?_, ?_, ?_⟩
  · unfold AddUserTimer
    rw [if_neg (by omega), if_neg (by unfold isTimerRunning; rw [hms]; simp [mapGet])]
    rw [hcommit, hupd]
    unfold UpdatePendingTimers newTimerInfo
    simp [mapSet]
  · unfold emptyTimerID
    omega
  · simp [loadedSingleton]
    omega
  · simp [loadedSingleton]
    omega

/-- Running further ascending-bucket calls preserves the invariant and appends
exactly the new taskless TimerInfos: every such call returns no task. -/
theorem runAdds_preserve (cs : List AddCall) :
    ∀ (tb : timerBuilder) (ms : mutableStateBuilder), C1Inv tb ms →
    (∀ c ∈ cs, mapGet ms.pendingTimerInfoIDs c.timerID = none) →
    (∀ c ∈ cs, 0 ≤ c.now ∧ 0 ≤ c.fireTimeout ∧
      callExpiry c < 9223372036854775808) →
    (∀ c ∈ cs, ∀ p ∈ ms.pendingTimerInfoIDs,
      expiryBucket p.2.ExpiryTime < expiryBucket (callExpiry c)) →
    cs.Pairwise (fun a b => a.timerID ≠ b.timerID ∧
      expiryBucket (callExpiry a) < expiryBucket (callExpiry b)) →
    ∃ tb', runAdds tb ms cs = some (tb',
      { ms with pendingTimerInfoIDs := ms.pendingTimerInfoIDs ++
          cs.map (fun c => (c.timerID, newTimerInfo c)) }) := by
  induction cs with
  | nil =>
    intro tb ms _ _ _ _ _
    exact ⟨tb, by simp [runAdds]⟩
  | cons c cs' ih =>
    intro tb ms hInv hfresh hok hgt hpair
    obtain ⟨tb2, hcall, hInv2⟩ := addUserTimer_step tb ms c hInv (hfresh c (by simp))
      (hok c (by simp)).1 (hok c (by simp)).2.1 (hok c (by simp)).2.2 (hgt c (by simp))
    have hrun : runAdds tb ms (c :: cs') = runAdds tb2
        { ms with pendingTimerInfoIDs :=
            ms.pendingTimerInfoIDs ++ [(c.timerID, newTimerInfo c)] } cs' := by
      simp only [runAdds, hcall]
    rw [hrun]
    have hpairc := List.pairwise_cons.mp hpair
    obtain ⟨tb', hres⟩ := ih tb2
      { ms with pendingTimerInfoIDs :=
          ms.pendingTimerInfoIDs ++ [(c.timerID, newTimerInfo c)] }
      hInv2
      (by
        intro c' hc'
        simp only
        rw [mapGet_append_of_none _ _ _ (hfresh c' (by simp [hc']))]
        exact mapGet_singleton_ne _ _ _ (hpairc.1 c' hc').1)
      (fun c' hc' => hok c' (by simp [hc']))
      (by
        intro c' hc' p hp
        simp only at hp
        rcases List.mem_append.mp hp with hp | hp
        · exact hgt c' (by simp [hc']) p hp
        · simp only [List.mem_singleton] at hp
          subst hp
          exact (hpairc.1 c' hc').2)
      hpairc.2
    refine ⟨tb', ?_⟩
    rw [hres]
    simp [List.append_assoc]

/-- A stored TimerInfo carrying a back-filled task id (proof scaffolding). -/
def taskedTimerInfo (c : AddCall) (t : Int) : TimerInfo :=
  { TimerID := c.timerID, ExpiryTime := callExpiry c, StartedID := c.startedID,
    TaskID := t }

/-- The snapshot after the first call of a run from empty state (proof scaffolding). -/
def msAfterFirst (c : AddCall) (t : Int) : mutableStateBuilder :=
  { pendingActivityInfoIDs := [],
    pendingTimerInfoIDs := [(c.timerID, taskedTimerInfo c t)] }

/-- C1, amended: when the successful AddUserTimer calls arrive with strictly
increasing expiry buckets (distinct 2^26-nanosecond timestamp buckets, hence distinct
and increasing expiries) and distinct timerIDs, exactly one pending TimerInfo in the
final snapshot has a created persisted timer task, namely the first, which holds the
strictly smallest expiry. (The counterexample shows the unrestricted claim fails:
once a timer's task is materialized its TaskID is never cleared, so adding an
earlier timer later leaves two TimerInfos with created tasks.) -/
theorem c1_earliest_only_amended (calls : List AddCall) (seqNum0 : Int)
    (hseq : 0 ≤ seqNum0) (hne : calls ≠ [])
    (hok : ∀ c ∈ calls, 0 ≤ c.now ∧ 0 ≤ c.fireTimeout ∧
      callExpiry c < 9223372036854775808)
    (hpair : calls.Pairwise (fun a b => a.timerID ≠ b.timerID ∧
      expiryBucket (callExpiry a) < expiryBucket (callExpiry b))) :
    ∃ tb ms, runAdds (newTimerBuilder seqNum0)
        { pendingActivityInfoIDs := [], pendingTimerInfoIDs := [] } calls =
        some (tb, ms) ∧
      taskedCount ms = 1 ∧
      ∃ e0 rest, ms.pendingTimerInfoIDs = e0 :: rest ∧
        e0.2.TaskID ≠ emptyTimerID ∧
        ∀ p ∈ rest, p.2.TaskID = emptyTimerID ∧ e0.2.ExpiryTime < p.2.ExpiryTime := by
  obtain ⟨c, cs, rfl⟩ := List.exists_cons_of_ne_nil hne
  have hokc := hok c (by simp)
  obtain ⟨o, tb2, t, hcall, hta, hl2, hs2⟩ := addUserTimer_first (newTimerBuilder seqNum0)
    c { pendingActivityInfoIDs := [], pendingTimerInfoIDs := [] } rfl
    (by simp [newTimerBuilder]) (by simpa [newTimerBuilder] using hseq)
    hokc.1 hokc.2.1 hokc.2.2
  have hpairc := List.pairwise_cons.mp hpair
  have hrun1 : runAdds (newTimerBuilder seqNum0)
      { pendingActivityInfoIDs := [], pendingTimerInfoIDs := [] } (c :: cs) =
      runAdds tb2 (msAfterFirst c t) cs := by
    simp only [runAdds, hcall]
    rfl
  have hInv1 : C1Inv tb2 (msAfterFirst c t) := by
    refine ⟨hl2, hs2, ?_, by simp [msAfterFirst], ?_⟩
    · intro p hp
      simp only [msAfterFirst, List.mem_singleton] at hp
      subst hp
      refine ⟨?_, hokc.2.2⟩
      show 0 ≤ callExpiry c
      unfold callExpiry
      have h1 := hokc.1
      have h2 := hokc.2.1
      positivity
    · exact ⟨(c.timerID, taskedTimerInfo c t), [], rfl, hta, by simp⟩
  obtain ⟨tb', hres⟩ := runAdds_preserve cs tb2 (msAfterFirst c t) hInv1
    (by
      intro c' hc'
      exact mapGet_singleton_ne _ _ _ (hpairc.1 c' hc').1)
    (fun c' hc' => hok c' (by simp [hc']))
    (by
      intro c' hc' p hp
      simp only [msAfterFirst, List.mem_singleton] at hp
      subst hp
      exact (hpairc.1 c' hc').2)
    hpairc.2
  have hmapnone : ∀ l : List AddCall,
      List.filter (fun p => p.2.TaskID != emptyTimerID)
        (l.map (fun c => (c.timerID, newTimerInfo c))) = [] := by
    intro l
    induction l with
    | nil => simp
    | cons x xs ihx => simp [newTimerInfo, ihx]
  refine ⟨tb', _, by rw [hrun1, hres], ?_, ?_⟩
  · unfold taskedCount
    simp only [msAfterFirst, List.cons_append, List.nil_append]
    rw [List.filter_cons]
    rw [if_pos (by simpa [taskedTimerInfo] using bne_iff_ne.mpr hta)]
    simp [hmapnone cs]
  · refine ⟨(c.timerID, taskedTimerInfo c t),
      cs.map (fun c => (c.timerID, newTimerInfo c)), by simp [msAfterFirst], hta, ?_⟩
    intro p hp
    obtain ⟨c', hc', rfl⟩ := List.mem_map.mp hp
    refine ⟨rfl, ?_⟩
    show (taskedTimerInfo c t).ExpiryTime < callExpiry c'
    exact lt_of_expiryBucket_lt _ _ (hpairc.1 c' hc').2

/-- C1, witness: the amended theorem applied to two calls at time 0 with fire timeouts
0 and 1 second (expiry buckets 0 and 14, distinct timerIDs). -/
theorem c1_earliest_only_amended_witness :
    ∃ tb ms, runAdds (newTimerBuilder 0)
        { pendingActivityInfoIDs := [], pendingTimerInfoIDs := [] }
        [{ now := 0, timerID := "a", fireTimeout := 0, startedID := 1 },
         { now := 0, timerID := "b", fireTimeout := 1, startedID := 2 }] =
        some (tb, ms) ∧
      taskedCount ms = 1 ∧
      ∃ e0 rest, ms.pendingTimerInfoIDs = e0 :: rest ∧
        e0.2.TaskID ≠ emptyTimerID ∧
        ∀ p ∈ rest, p.2.TaskID = emptyTimerID ∧ e0.2.ExpiryTime < p.2.ExpiryTime :=
  c1_earliest_only_amended _ 0 (by decide) (by decide) (by decide) (by decide)

/-! ## The mutable state store (claims C4 and C5)

The store implementation (`common/persistence/cassandraPersistence.go`) is not under
src/; only its test is. The definitions below are therefore modelled from the spec
(sections 3, 4.5 and 7), with the error-priority ordering fixed by the assertions of
`cassandraPersistence_test.go` (a stale RangeID yields ShardOwnershipLost even when
the execution already exists or the nextEventID condition matches). -/

/-- Modelled from the spec: the error taxonomy of the store (spec section 7). -/
inductive StoreError where
  | ShardOwnershipLost
  | ConditionFailed
  | WorkflowExecutionAlreadyStarted
deriving DecidableEq

/-- Modelled from the spec: WorkflowExecutionInfo (spec section 3). History and
executionContext are opaque payloads; the store-assigned lastUpdatedTimestamp is
omitted (no claim mentions it). -/
structure WorkflowExecutionInfo where
  WorkflowID : String
  RunID : String
  TaskList : String
  History : String
  ExecutionContext : String
  State : Int
  NextEventID : Int
  LastProcessedEvent : Int
  DecisionPending : Bool
deriving DecidableEq

/-- WorkflowStateCreated. -/
def WorkflowStateCreated : Int := 0

/-- Modelled from the spec: a persisted transfer-queue row. -/
structure TransferTaskRow where
  TaskID : Int
  WorkflowID : String
  RunID : String
  TaskType : Int
  ScheduleID : Int
deriving DecidableEq

/-- Modelled from the spec: a persisted timer-queue row. -/
structure TimerTaskRow where
  TaskID : Int
  WorkflowID : String
  RunID : String
  TaskType : Int
  EventID : Int
deriving DecidableEq

/-- Modelled from the spec: the durable state of one shard — its fencing RangeID, the
execution rows keyed by (workflowID, runID), the transfer and timer task queues, and
the per-execution activity/timer info maps (spec sections 3 and 4.5). -/
structure ShardStore where
  rangeID : Int
  executions : List ((String × String) × WorkflowExecutionInfo)
  transferTasks : List TransferTaskRow
  timerTasks : List TimerTaskRow
  activityMaps : List ((String × String) × List (Int × ActivityInfo))
  timerMaps : List ((String × String) × List (String × TimerInfo))
deriving DecidableEq

/-- Modelled from the spec: the arguments of updateWorkflowExecution
(spec section 4.5); rangeID is optional. -/
structure UpdateWorkflowExecutionRequest where
  updatedInfo : WorkflowExecutionInfo
  conditionNextEventID : Int
  rangeID : Option Int
  transferTasks : List TransferTaskRow
  timerTasks : List TimerTaskRow
  timerTaskToDelete : Option Int
  upsertActivityInfos : List ActivityInfo
  deleteActivityID : Option Int
  upsertTimerInfos : List TimerInfo
  deleteTimerIDs : List String
deriving DecidableEq

/-- Modelled from the spec: upsert the named activity infos, then delete the named
schedule id, in one execution's activity map. -/
def applyActivityChanges (m : List (Int × ActivityInfo)) (ups : List ActivityInfo)
    (del : Option Int) : List (Int × ActivityInfo) :=
  let m1 := ups.foldl (fun acc a => mapSet acc a.ScheduleID a) m
  match del with
  | some i => m1.filter (fun p => p.1 != i)
  | none => m1

/-- Modelled from the spec: upsert the named timer infos, then delete the named
timer ids, in one execution's timer map. -/
def applyTimerInfoChanges (m : List (String × TimerInfo)) (ups : List TimerInfo)
    (dels : List String) : List (String × TimerInfo) :=
  let m1 := ups.foldl (fun acc ti => mapSet acc ti.TimerID ti) m
  m1.filter (fun p => !(dels.contains p.1))

/-- Modelled from the spec: the atomic success path of updateWorkflowExecution —
replace the execution row, append new transfer/timer tasks, delete the named timer
task, and apply the activity/timer info upserts and deletes (spec section 4.5). -/
def applyUpdate (s : ShardStore) (req : UpdateWorkflowExecutionRequest)
    (key : String × String) : ShardStore :=
  { s with
    executions := mapSet s.executions key req.updatedInfo,
    transferTasks := s.transferTasks ++ req.transferTasks,
    timerTasks :=
      (s.timerTasks.filter (fun tt => decide (req.timerTaskToDelete ≠ some tt.TaskID)))
        ++ req.timerTasks,
    activityMaps := mapSet s.activityMaps key
      (applyActivityChanges ((mapGet s.activityMaps key).getD [])
        req.upsertActivityInfos req.deleteActivityID),
    timerMaps := mapSet s.timerMaps key
      (applyTimerInfoChanges ((mapGet s.timerMaps key).getD [])
        req.upsertTimerInfos req.deleteTimerIDs) }

/-- Modelled from the spec: the conditional core of updateWorkflowExecution — the
write is accepted only if the stored nextEventID equals the supplied condition;
otherwise it fails with ConditionFailed and leaves the store untouched (a conditional
write against an absent row also fails its condition). -/
def updateCore (s : ShardStore) (req : UpdateWorkflowExecutionRequest) :
    Option StoreError × ShardStore :=
  match mapGet s.executions (req.updatedInfo.WorkflowID, req.updatedInfo.RunID) with
  | none => (some StoreError.ConditionFailed, s)
  | some info =>
    if info.NextEventID ≠ req.conditionNextEventID then
      (some StoreError.ConditionFailed, s)
    else
      (none, applyUpdate s req (req.updatedInfo.WorkflowID, req.updatedInfo.RunID))

/-- Modelled from the spec: updateWorkflowExecution — a supplied RangeID that does
not match the shard's current RangeID fails with ShardOwnershipLost before the
nextEventID condition is consulted (spec sections 4.5 and 8.3; ordering fixed by
TestUpdateWorkflow). -/
def updateWorkflowExecution (s : ShardStore) (req : UpdateWorkflowExecutionRequest) :
    Option StoreError × ShardStore :=
  match req.rangeID with
  | some r =>
    if r ≠ s.rangeID then (some StoreError.ShardOwnershipLost, s) else updateCore s req
  | none => updateCore s req

/-- Modelled from the spec: the arguments of createWorkflowExecution
(spec section 4.5). -/
structure CreateWorkflowExecutionRequest where
  WorkflowID : String
  RunID : String
  TaskList : String
  History : String
  ExecutionContext : String
  NextEventID : Int
  LastProcessedEvent : Int
  DecisionScheduleID : Int
  DecisionTaskID : Int
  RangeID : Int
  TimerTasks : List TimerTaskRow
deriving DecidableEq

/-- Modelled from the spec: createWorkflowExecution — fencing is checked first (a
stale RangeID fails ShardOwnershipLost even against an existing execution, as
TestPersistenceStartWorkflow asserts); then an existing (workflowID, runID) row fails
WorkflowExecutionAlreadyStarted; otherwise the execution row, its decision transfer
task and the supplied timer tasks are inserted atomically. -/
def createWorkflowExecution (s : ShardStore) (req : CreateWorkflowExecutionRequest) :
    Option StoreError × ShardStore :=
  if req.RangeID ≠ s.rangeID then (some StoreError.ShardOwnershipLost, s)
  else
    match mapGet s.executions (req.WorkflowID, req.RunID) with
    | some _ => (some StoreError.WorkflowExecutionAlreadyStarted, s)
    | none =>
      (none,
        { s with
          executions := mapSet s.executions (req.WorkflowID, req.RunID)
            { WorkflowID := req.WorkflowID, RunID := req.RunID,
              TaskList := req.TaskList, History := req.History,
              ExecutionContext := req.ExecutionContext,
              State := WorkflowStateCreated, NextEventID := req.NextEventID,
              LastProcessedEvent := req.LastProcessedEvent, DecisionPending := true },
          transferTasks := s.transferTasks ++
            [{ TaskID := req.DecisionTaskID, WorkflowID := req.WorkflowID,
               RunID := req.RunID, TaskType := 0,
               ScheduleID := req.DecisionScheduleID }],
          timerTasks := s.timerTasks ++ req.TimerTasks })

/-! ## Claim C5: fencing priority -/

/-- C5: every conditional write — update or create — presenting a RangeID different
from the shard's current RangeID fails with ShardOwnershipLost and leaves the whole
store unchanged, regardless of its nextEventID condition or of whether the execution
exists. -/
theorem c5_fencing_priority (s : ShardStore) (ureq : UpdateWorkflowExecutionRequest)
    (creq : CreateWorkflowExecutionRequest) (r : Int)
    (h1 : ureq.rangeID = some r) (h2 : r ≠ s.rangeID) (h3 : creq.RangeID ≠ s.rangeID) :
    updateWorkflowExecution s ureq = (some StoreError.ShardOwnershipLost, s) ∧
    createWorkflowExecution s creq = (some StoreError.ShardOwnershipLost, s) := by
  constructor
  · unfold updateWorkflowExecution
    rw [h1]
    simp [h2]
  · unfold createWorkflowExecution
    simp [h3]

/-- A one-execution store with RangeID 5 and stored nextEventID 3 (scaffolding for
the C4/C5 concrete instances). -/
def cexInfo : WorkflowExecutionInfo :=
  { WorkflowID := "w", RunID := "r", TaskList := "q", History := "event1",
    ExecutionContext := "", State := WorkflowStateCreated, NextEventID := 3,
    LastProcessedEvent := 0, DecisionPending := true }

/-- The store holding `cexInfo` under RangeID 5. -/
def cexStore : ShardStore :=
  { rangeID := 5, executions := [(("w", "r"), cexInfo)], transferTasks := [],
    timerTasks := [], activityMaps := [], timerMaps := [] }

/-- An update of `cexInfo` with a matching condition but a stale RangeID 4. -/
def cexStaleReq : UpdateWorkflowExecutionRequest :=
  { updatedInfo := cexInfo, conditionNextEventID := 3, rangeID := some 4,
    transferTasks := [], timerTasks := [], timerTaskToDelete := none,
    upsertActivityInfos := [], deleteActivityID := none, upsertTimerInfos := [],
    deleteTimerIDs := [] }

/-- A create against `cexStore` presenting the stale RangeID 4. -/
def cexCreateReq : CreateWorkflowExecutionRequest :=
  { WorkflowID := "w2", RunID := "r2", TaskList := "q", History := "event1",
    ExecutionContext := "", NextEventID := 3, LastProcessedEvent := 0,
    DecisionScheduleID := 2, DecisionTaskID := 1, RangeID := 4, TimerTasks := [] }

/-- C5, witness: the fencing theorem applied to `cexStore` with stale RangeID 4. -/
theorem c5_fencing_priority_witness :
    updateWorkflowExecution cexStore cexStaleReq =
      (some StoreError.ShardOwnershipLost, cexStore) ∧
    createWorkflowExecution cexStore cexCreateReq =
      (some StoreError.ShardOwnershipLost, cexStore) :=
  c5_fencing_priority cexStore cexStaleReq cexCreateReq 4 rfl (by decide) (by decide)

/-! ## Claim C4: optimistic concurrency -/

/-- C4, counterexample: an update whose condition matches the stored nextEventID
(3 = 3) but which presents a stale RangeID is NOT accepted — it fails with
ShardOwnershipLost, not ConditionFailed — so "accepted if and only if the stored
nextEventID equals the condition" fails, and a mismatching-condition call with a
stale RangeID would likewise not fail with ConditionFailed. -/
theorem c4_optimistic_concurrency_counterexample :
    mapGet cexStore.executions ("w", "r") = some cexInfo ∧
    cexInfo.NextEventID = cexStaleReq.conditionNextEventID ∧
    updateWorkflowExecution cexStore cexStaleReq =
      (some StoreError.ShardOwnershipLost, cexStore) := by
  decide

/-- C4, amended: for every stored execution and every updateWorkflowExecution call
that presents the shard's current RangeID (or none), the write is accepted exactly
when the stored nextEventID equals the supplied condition; when they differ the call
fails with ConditionFailed and the whole store — execution rows, task queues,
activity and timer infos — is left unchanged. -/
theorem c4_optimistic_concurrency_amended (s : ShardStore)
    (req : UpdateWorkflowExecutionRequest) (info : WorkflowExecutionInfo)
    (hrange : req.rangeID = none ∨ req.rangeID = some s.rangeID)
    (hfound : mapGet s.executions (req.updatedInfo.WorkflowID, req.updatedInfo.RunID)
      = some info) :
    ((updateWorkflowExecution s req).1 = none ↔
      info.NextEventID = req.conditionNextEventID) ∧
    (info.NextEventID ≠ req.conditionNextEventID →
      updateWorkflowExecution s req = (some StoreError.ConditionFailed, s)) := by
  have hcore : updateWorkflowExecution s req = updateCore s req := by
    rcases hrange with h | h
    · unfold updateWorkflowExecution
      rw [h]
    · unfold updateWorkflowExecution
      rw [h]
      simp
  rw [hcore]
  unfold updateCore
  rw [hfound]
  by_cases h : info.NextEventID = req.conditionNextEventID
  · simp [h]
  · simp [h]

/-- A request against `cexStore` with the current RangeID but a stale condition 4. -/
def cexStaleCondReq : UpdateWorkflowExecutionRequest :=
  { updatedInfo := cexInfo, conditionNextEventID := 4, rangeID := some 5,
    transferTasks := [], timerTasks := [], timerTaskToDelete := none,
    upsertActivityInfos := [], deleteActivityID := none, upsertTimerInfos := [],
    deleteTimerIDs := [] }

/-- C4, witness: the amended theorem applied to `cexStore` and a correctly-fenced
request whose condition 4 differs from the stored nextEventID 3: the write is
rejected with ConditionFailed and the store is unchanged. -/
theorem c4_optimistic_concurrency_amended_witness :
    (updateWorkflowExecution cexStore cexStaleCondReq).1 ≠ none ∧
    updateWorkflowExecution cexStore cexStaleCondReq =
      (some StoreError.ConditionFailed, cexStore) :=
  ⟨fun h => absurd ((c4_optimistic_concurrency_amended cexStore cexStaleCondReq cexInfo
      (Or.inr rfl) (by decide)).1.mp h) (by decide),
   (c4_optimistic_concurrency_amended cexStore cexStaleCondReq cexInfo
      (Or.inr rfl) (by decide)).2 (by decide)⟩

/-! ## Claim C9: pending timer index insertion -/

theorem insertTimer_nil (td : timerDetails) : insertTimer [] td = ([td], true) := rfl

theorem insertTimer_cons (x : timerDetails) (xs : List timerDetails)
    (td : timerDetails) :
    insertTimer (x :: xs) td =
      if td.SequenceID ≤ x.SequenceID then (td :: x :: xs, true)
      else (x :: (insertTimer xs td).1, false) := by
  unfold insertTimer
  rw [List.findIdx_cons]
  by_cases h : td.SequenceID ≤ x.SequenceID
  · simp [h]
  · simp [h, List.insertIdx_succ_cons]

/-- C9: inserting a candidate into a list sorted ascending by SequenceID yields a
sorted list that is a permutation of the candidate consed onto the input (the
candidate is inserted, nothing else changes), and the returned flag is true exactly
when the candidate was placed at the front of the list — equivalently, exactly when
it became a minimum of the set of SequenceIDs. -/
theorem c9_insertTimer_sorted (ts : List timerDetails) (td : timerDetails)
    (hs : ts.Pairwise (fun a b => a.SequenceID ≤ b.SequenceID)) :
    (insertTimer ts td).1.Pairwise (fun a b => a.SequenceID ≤ b.SequenceID) ∧
    (insertTimer ts td).1.Perm (td :: ts) ∧
    ((insertTimer ts td).2 = true ↔ (insertTimer ts td).1.head? = some td) ∧
    ((insertTimer ts td).2 = true ↔ ∀ x ∈ ts, td.SequenceID ≤ x.SequenceID) := by
  induction ts with
  | nil =>
    rw [insertTimer_nil]
    refine ⟨by simp, List.Perm.refl _, by simp, by simp⟩
  | cons x xs ih =>
    have hsc := List.pairwise_cons.mp hs
    by_cases h : td.SequenceID ≤ x.SequenceID
    · rw [insertTimer_cons, if_pos h]
      refine ⟨?_, List.Perm.refl _, by simp, ?_⟩
      · rw [List.pairwise_cons]
        refine ⟨?_, hs⟩
        intro y hy
        rcases List.mem_cons.mp hy with hy | hy
        · rw [hy]
          exact h
        · exact le_trans h (hsc.1 y hy)
      · constructor
        · intro _ y hy
          rcases List.mem_cons.mp hy with hy | hy
          · rw [hy]
            exact h
          · exact le_trans h (hsc.1 y hy)
        · intro _
          rfl
    · rw [insertTimer_cons, if_neg h]
      obtain ⟨ihs, ihp, _, _⟩ := ih hsc.2
      have hxtd : x.SequenceID < td.SequenceID := by omega
      refine ⟨?_, ?_, ?_, ?_⟩
      · rw [List.pairwise_cons]
        refine ⟨?_, ihs⟩
        intro y hy
        have hy' : y ∈ td :: xs := ihp.mem_iff.mp hy
        rcases List.mem_cons.mp hy' with hy' | hy'
        · rw [hy']
          omega
        · exact hsc.1 y hy'
      · exact (ihp.cons x).trans (List.Perm.swap td x xs)
      · constructor
        · intro hfalse
          cases hfalse
        · intro hhead
          simp only [List.head?_cons, Option.some.injEq] at hhead
          rw [hhead] at hxtd
          omega
      · constructor
        · intro hfalse
          cases hfalse
        · intro hall
          have := hall x (by simp)
          omega

/-- A minimal timer candidate with the given key (witness scaffolding). -/
def c9Td (k : Int) (b : Bool) : timerDetails :=
  { SequenceID := k, TimerTask := { TaskID := 0, EventID := 0 }, TaskCreated := b }

/-- C9, witness: inserting a key-6 candidate into the sorted two-element list with
keys 5 and 7. -/
theorem c9_insertTimer_sorted_witness :
    (insertTimer [c9Td 5 false, c9Td 7 true] (c9Td 6 false)).1.Pairwise
      (fun a b => a.SequenceID ≤ b.SequenceID) ∧
    (insertTimer [c9Td 5 false, c9Td 7 true] (c9Td 6 false)).1.Perm
      (c9Td 6 false :: [c9Td 5 false, c9Td 7 true]) ∧
    ((insertTimer [c9Td 5 false, c9Td 7 true] (c9Td 6 false)).2 = true ↔
      (insertTimer [c9Td 5 false, c9Td 7 true] (c9Td 6 false)).1.head? =
        some (c9Td 6 false)) ∧
    ((insertTimer [c9Td 5 false, c9Td 7 true] (c9Td 6 false)).2 = true ↔
      ∀ x ∈ [c9Td 5 false, c9Td 7 true], (c9Td 6 false).SequenceID ≤ x.SequenceID) :=
  c9_insertTimer_sorted [c9Td 5 false, c9Td 7 true] (c9Td 6 false) (by decide)

end Cadence
